import Mathlib

/-!
Shallow embedding of the fam-auth user-account core
(`src/repository/data_access/querysets/user.py`, `src/models/user.py`,
`src/utils/regular_expressions.py`, `src/schemas/user.py`,
`src/exceptions.py`).

Modelling conventions:
* The database is a list of user rows; `select(...).filter(...)` followed by
  `scalar_one_or_none()` is `List.find?` (the unique row under the store's
  uniqueness constraints).
* A raised Python exception is an `Except.error`; mutators return the
  resulting store alongside, so an error leaves the store the caller passed.
* Time is `Nat`.  SQLAlchemy column arguments `default=datetime.now(timezone.utc)`
  and `onupdate=datetime.now(timezone.utc)` in `src/models/user.py` are calls
  evaluated once, when the module is imported; the embedding therefore threads
  the constant `importTime` that those two arguments hold.  `datetime.now`
  called inside a function body (as in `login`) is the genuine current time
  `now`.
* The bcrypt context of passlib is an external collaborator; it is modelled
  abstractly: a hash records the salt and the hashed plaintext, and `verify`
  compares plaintexts, which captures salted hashing (`hash p s1 ≠ hash p s2`
  for `s1 ≠ s2`, both verifying `p`).
-/

/-- Model of a bcrypt hash produced by passlib's `CryptContext`: the salt and
the plaintext it was derived from.  Opaque to the rest of the code; only
`pwd_hash` and `pwd_verify` look inside. -/
structure BcryptHash where
  salt : Nat
  src : String
deriving Repr, DecidableEq

/-- `pwd_context.hash(p)` with the salt the context drew. -/
def pwd_hash (p : String) (salt : Nat) : BcryptHash := ⟨salt, p⟩

/-- `pwd_context.verify(p, h)`: true iff `h` was derived from `p` (bcrypt
verification re-hashes `p` under the salt embedded in `h`). -/
def pwd_verify (p : String) (h : BcryptHash) : Bool := p == h.src

/-- A row of the `users` table (`src/models/user.py`).  The `id` is the
opaque primary key.  `first_name`, `last_name`, `birth_date` and `image`
play no role in any claim but are carried for faithfulness. -/
structure UserRow where
  id : Nat
  username : String
  email : String
  password : BcryptHash
  first_name : Option String := none
  last_name : Option String := none
  phone_number : Option String := none
  birth_date : Option Nat := none
  image : Option String := none
  is_active : Bool := true
  created : Nat
  modified : Nat
  last_login : Option Nat := none
deriving Repr, DecidableEq

/-- The store: the rows of the `users` table. -/
abbrev DB := List UserRow

/-- The exceptions the queryset can raise (`src/exceptions.py`, plus Python's
builtin `ValueError` and SQLAlchemy's `IntegrityError`).
`usernameAlreadyExists` carries the offending username (the source formats it
into a quoted message). -/
inductive PyErr where
  | userNotFound (msg : String)
  | usernameAlreadyExists (username : String)
  | passwordConfirmation (msg : String)
  | invalidPhoneNumber (msg : String)
  | passwordMatch (msg : String)
  | valueError (msg : String)
  | integrityError
deriving Repr, DecidableEq

/-- `re.match(PHONE_PATTERN, s)` as a Boolean, for
`PHONE_PATTERN = r"^\+\d{1,15}$"` (`src/utils/regular_expressions.py`).
Python semantics: `\d{1,15}` takes 1 to 15 digits greedily, and `$` matches
at the end of the string or just before a newline that ends the string.
`\d` is modelled over the ASCII digits; no claim exercises other Unicode
decimal digits. -/
def re_match_phone (s : String) : Bool :=
  match s.data with
  | '+' :: rest =>
    let ds := rest.takeWhile Char.isDigit
    let t := rest.dropWhile Char.isDigit
    decide (1 ≤ ds.length) && decide (ds.length ≤ 15) && (t == [] || t == ['\n'])
  | _ => false

/-- The input of `UserQuery.register_new_user` (`src/schemas/user.py`,
`UserCreateSchema`; the profile fields no claim touches are omitted). -/
structure UserCreateSchema where
  username : String
  email : String
  phone_number : Option String := none
  password : String
  confirm_password : String
deriving Repr, DecidableEq

namespace UserQuery

/-- `UserQuery.get_user_by_id`: `scalar_one_or_none` on the id filter, then
`raise UserNotFoundError` when no row matched. -/
def get_user_by_id (db : DB) (user_id : Nat) : Except PyErr UserRow :=
  match db.find? (fun u => u.id == user_id) with
  | some u => .ok u
  | none => .error (.userNotFound ("User with ID " ++ toString user_id ++ " not found."))

/-- `UserQuery.get_user_by_email`: `scalar_one_or_none` on the email filter,
then `raise UserNotFoundError` when no row matched. -/
def get_user_by_email (db : DB) (email : String) : Except PyErr UserRow :=
  match db.find? (fun u => u.email == email) with
  | some u => .ok u
  | none => .error (.userNotFound ("User with email " ++ email ++ " not found."))

/-- The store-side constraints of the `users` table that an insert can
violate (`src/models/user.py`): unique `username`, unique `email`, and the
check constraint `length(username) >= 4`.  A violating commit raises
`IntegrityError`. -/
def insert_violates (db : DB) (u : UserRow) : Bool :=
  db.any (fun v => v.username == u.username || v.email == u.email)
    || decide (u.username.length < 4)

/-- The Python truthiness test `user_data.phone_number and not
re.match(phone_pattern, user_data.phone_number)`: `None` and the empty
string are falsy, so only a non-empty phone is validated. -/
def phone_rejected (p? : Option String) : Bool :=
  match p? with
  | none => false
  | some p => !p.isEmpty && !re_match_phone p

/-- `UserQuery.register_new_user`.  Pre-checks username uniqueness, password
confirmation and phone format, then hashes the password and inserts; a
commit-time `IntegrityError` is caught, the session rolled back, and
`ValueError` raised.  `importTime` is the constant held by the `created` /
`modified` column defaults; `new_id` is the fresh primary key and `salt` the
salt the hashing context draws. -/
def register_new_user (importTime : Nat) (db : DB) (d : UserCreateSchema)
    (new_id : Nat) (salt : Nat) : Except PyErr UserRow × DB :=
  match db.find? (fun u => u.username == d.username) with
  | some _ => (.error (.usernameAlreadyExists d.username), db)
  | none =>
    if d.password != d.confirm_password then
      (.error (.passwordConfirmation "Password and confirmation password do not match."), db)
    else if phone_rejected d.phone_number then
      (.error (.invalidPhoneNumber "Invalid phone number format. Use international format (e.g., +14155552671)."), db)
    else
      let new_user : UserRow :=
        { id := new_id, username := d.username, email := d.email,
          password := pwd_hash d.password salt, phone_number := d.phone_number,
          is_active := true, created := importTime, modified := importTime,
          last_login := none }
      if insert_violates db new_user then
        (.error (.valueError "Failed to register user due to a database error."), db)
      else
        (.ok new_user, db ++ [new_user])

/-- `UserQuery.login`.  Looks the user up by email (a miss raises
`UserNotFoundError` out of `get_user_by_email`; the subsequent `if not user`
test is unreachable), returns `None` when the password does not verify, and
otherwise sets `last_login = datetime.now(timezone.utc)` and commits.  The
flush of that change fires the `modified` column's `onupdate`, whose value is
the import-time constant. -/
def login (importTime : Nat) (db : DB) (email password : String) (now : Nat) :
    Except PyErr (Option UserRow) × DB :=
  match get_user_by_email db email with
  | .error e => (.error e, db)
  | .ok user =>
    if !pwd_verify password user.password then
      (.ok none, db)
    else
      let user' := { user with last_login := some now, modified := importTime }
      (.ok (some user'), db.map (fun u => if u.id == user.id then user' else u))

/-- `UserQuery.change_password`.  A missing user raises the builtin
`ValueError("User not found")`; reuse of the current password raises
`PasswordMatchError`; a confirmation mismatch raises
`PasswordConfirmationError`; otherwise the password column is updated (the
`modified` column's `onupdate` fires with the import-time constant). -/
def change_password (importTime : Nat) (db : DB) (user_id : Nat)
    (new_password confirm_password : String) (salt : Nat) :
    Except PyErr Unit × DB :=
  match db.find? (fun u => u.id == user_id) with
  | none => (.error (.valueError "User not found"), db)
  | some user =>
    if pwd_verify new_password user.password then
      (.error (.passwordMatch "New password cannot be the same as the old password."), db)
    else if new_password != confirm_password then
      (.error (.passwordConfirmation "New password and confirmation password do not match."), db)
    else
      (.ok (), db.map (fun u =>
        if u.id == user_id then
          { u with password := pwd_hash new_password salt, modified := importTime }
        else u))

/-- `UserQuery.change_username`.  The duplicate pre-check selects any row
holding `new_username` (the caller included); it performs no length check, so
a candidate shorter than 4 that reaches a matching row is rejected only by
the store's `check_username_min_length` constraint, surfacing as an uncaught
`IntegrityError`.  Otherwise the username column is updated (the `modified`
column's `onupdate` fires with the import-time constant). -/
def change_username (importTime : Nat) (db : DB) (user_id : Nat)
    (new_username : String) : Except PyErr Unit × DB :=
  match db.find? (fun u => u.username == new_username) with
  | some _ => (.error (.usernameAlreadyExists new_username), db)
  | none =>
    if decide (new_username.length < 4) && db.any (fun u => u.id == user_id) then
      (.error .integrityError, db)
    else
      (.ok (), db.map (fun u =>
        if u.id == user_id then { u with username := new_username, modified := importTime }
        else u))

end UserQuery

/-! Helper discriminators and lemmas shared by several theorems. -/

/-- True exactly on `UserNotFoundError`. -/
def PyErr.isUserNotFound : PyErr → Bool
  | .userNotFound _ => true
  | _ => false

/-- True exactly on `UsernameAlreadyExistsError`. -/
def PyErr.isUsernameTaken : PyErr → Bool
  | .usernameAlreadyExists _ => true
  | _ => false

/-- A `find?` over the store misses when no row satisfies the filter. -/
theorem db_find_none {p : UserRow → Bool} (db : DB)
    (h : ∀ u ∈ db, ¬ p u = true) : db.find? p = none :=
  List.find?_eq_none.mpr h

/-- Claim C1: the code raises on unknown email and returns None only on a
wrong password, so the two authentication-failure causes are observably
different, contradicting the claim (and the docstring of `login`, which
promises None for invalid credentials — the `if not user` test there is
dead code because `get_user_by_email` raises first). -/
theorem login_unknown_email_raises_wrong_password_returns_none :
    UserQuery.login 0 [] "a@b.c" "pw" 7
      = (.error (.userNotFound "User with email a@b.c not found."), []) ∧
    (UserQuery.login 0
        [{ id := 1, username := "alice", email := "a@b.c",
           password := pwd_hash "good" 0, created := 0, modified := 0 }]
        "a@b.c" "bad" 7).1 = .ok none := by
  exact ⟨rfl, rfl⟩

/-- Claim C3, counterexample: a routine miss on either read is a raised
`UserNotFoundError`, not an explicit absence value. -/
theorem reads_raise_on_miss_example :
    UserQuery.get_user_by_id [] 1
      = .error (.userNotFound "User with ID 1 not found.") ∧
    UserQuery.get_user_by_email [] "x@y.z"
      = .error (.userNotFound "User with email x@y.z not found.") := by
  exact ⟨rfl, rfl⟩

/-- Claim C3, amended: for every key that matches no stored account, both
repository reads raise `UserNotFoundError` (absence is signalled by that
exception; no read returns None). -/
theorem reads_raise_user_not_found_on_miss (db : DB) (uid : Nat) (email : String)
    (hid : ∀ u ∈ db, u.id ≠ uid) (hem : ∀ u ∈ db, u.email ≠ email) :
    UserQuery.get_user_by_id db uid
      = .error (.userNotFound ("User with ID " ++ toString uid ++ " not found.")) ∧
    UserQuery.get_user_by_email db email
      = .error (.userNotFound ("User with email " ++ email ++ " not found.")) := by
  have h1 : db.find? (fun u => u.id == uid) = none :=
    db_find_none db (by intro u hu; simpa using hid u hu)
  have h2 : db.find? (fun u => u.email == email) = none :=
    db_find_none db (by intro u hu; simpa using hem u hu)
  constructor
  · unfold UserQuery.get_user_by_id
    rw [h1]
  · unfold UserQuery.get_user_by_email
    rw [h2]

/-- Witness for C3's amended theorem at a concrete store and keys. -/
theorem reads_raise_user_not_found_on_miss_witness :
    UserQuery.get_user_by_id
        [{ id := 1, username := "alice", email := "a@b.c",
           password := pwd_hash "pw" 0, created := 0, modified := 0 }] 2
      = .error (.userNotFound "User with ID 2 not found.") ∧
    UserQuery.get_user_by_email
        [{ id := 1, username := "alice", email := "a@b.c",
           password := pwd_hash "pw" 0, created := 0, modified := 0 }] "z@y.x"
      = .error (.userNotFound "User with email z@y.x not found.") :=
  reads_raise_user_not_found_on_miss _ 2 "z@y.x" (by decide) (by decide)

/-- Claim C4, counterexample: `change_password` on a missing id raises the
builtin `ValueError("User not found")`, which is not the
`UserNotFoundError` kind the lookup operations raise. -/
theorem change_password_missing_user_example :
    UserQuery.change_password 0 [] 1 "new1" "new1" 0
      = (.error (.valueError "User not found"), []) ∧
    (PyErr.valueError "User not found").isUserNotFound = false := by
  exact ⟨rfl, rfl⟩

/-- Claim C4, amended: for every id that matches no stored account,
`change_password` raises `ValueError("User not found")` — a different error
kind than the lookups' `UserNotFoundError` — and leaves the store
unchanged. -/
theorem change_password_missing_user_value_error (importTime : Nat) (db : DB)
    (uid : Nat) (np cp : String) (salt : Nat) (h : ∀ u ∈ db, u.id ≠ uid) :
    UserQuery.change_password importTime db uid np cp salt
      = (.error (.valueError "User not found"), db) ∧
    (PyErr.valueError "User not found").isUserNotFound = false := by
  have h1 : db.find? (fun u => u.id == uid) = none :=
    db_find_none db (by intro u hu; simpa using h u hu)
  constructor
  · unfold UserQuery.change_password
    rw [h1]
  · rfl

/-- Witness for C4's amended theorem at a concrete store and id. -/
theorem change_password_missing_user_value_error_witness :
    UserQuery.change_password 5
        [{ id := 1, username := "alice", email := "a@b.c",
           password := pwd_hash "pw" 0, created := 0, modified := 0 }] 9 "n1" "n1" 2
      = (.error (.valueError "User not found"),
         [{ id := 1, username := "alice", email := "a@b.c",
            password := pwd_hash "pw" 0, created := 0, modified := 0 }]) ∧
    (PyErr.valueError "User not found").isUserNotFound = false :=
  change_password_missing_user_value_error 5 _ 9 "n1" "n1" 2 (by decide)

/-- Claim C7: when the username is free and the two passwords differ,
`register_new_user` raises `PasswordConfirmationError` and the store is
unchanged (no account is created). -/
theorem register_password_confirmation_mismatch (importTime : Nat) (db : DB)
    (d : UserCreateSchema) (nid salt : Nat)
    (hfree : ∀ u ∈ db, u.username ≠ d.username)
    (hpw : d.password ≠ d.confirm_password) :
    UserQuery.register_new_user importTime db d nid salt
      = (.error (.passwordConfirmation
          "Password and confirmation password do not match."), db) := by
  have h1 : db.find? (fun u => u.username == d.username) = none :=
    db_find_none db (by intro u hu; simpa using hfree u hu)
  unfold UserQuery.register_new_user
  rw [h1]
  simp [hpw]

/-- Witness for C7 at the spec's end-to-end scenario 2 inputs. -/
theorem register_password_confirmation_mismatch_witness :
    UserQuery.register_new_user 0 []
        { username := "bob123", email := "bob@example.com",
          password := "abc", confirm_password := "xyz" } 1 0
      = (.error (.passwordConfirmation
          "Password and confirmation password do not match."), []) :=
  register_password_confirmation_mismatch 0 [] _ 1 0 (by decide) (by decide)

/-- Claim C2, counterexample: a registration whose pre-check passes (fresh
username) but whose insert violates the store's uniqueness constraint (the
email is already taken) raises `ValueError`, not the
`UsernameAlreadyExistsError` of the pre-check path — the two failure paths
are observably different. -/
theorem register_duplicate_insert_raises_value_error_example :
    (UserQuery.register_new_user 0
        [{ id := 1, username := "alice", email := "a@b.c",
           password := pwd_hash "pw" 0, created := 0, modified := 0 }]
        { username := "bobby", email := "a@b.c",
          password := "pw", confirm_password := "pw" } 2 1).1
      = .error (.valueError "Failed to register user due to a database error.") ∧
    (PyErr.valueError "Failed to register user due to a database error.").isUsernameTaken
      = false := by
  exact ⟨rfl, rfl⟩

/-- Claim C2, amended: when the pre-checks pass but the insert hits a
store-level uniqueness violation, `register_new_user` catches the
`IntegrityError` and raises `ValueError("Failed to register user due to a
database error.")` — a different error than the pre-check path's
`UsernameAlreadyExistsError` — leaving the store unchanged. -/
theorem register_duplicate_insert_raises_value_error (importTime : Nat) (db : DB)
    (d : UserCreateSchema) (nid salt : Nat)
    (hfree : ∀ u ∈ db, u.username ≠ d.username)
    (hpw : d.password = d.confirm_password)
    (hphone : UserQuery.phone_rejected d.phone_number = false)
    (hdup : ∃ u ∈ db, u.email = d.email) :
    UserQuery.register_new_user importTime db d nid salt
      = (.error (.valueError "Failed to register user due to a database error."), db) ∧
    (PyErr.valueError "Failed to register user due to a database error.").isUsernameTaken
      = false := by
  have h1 : db.find? (fun u => u.username == d.username) = none :=
    db_find_none db (by intro u hu; simpa using hfree u hu)
  have h2 : ∀ r : UserRow, r.email = d.email → UserQuery.insert_violates db r = true := by
    intro r hr
    obtain ⟨u, hu, he⟩ := hdup
    unfold UserQuery.insert_violates
    simp only [Bool.or_eq_true, List.any_eq_true]
    exact Or.inl ⟨u, hu, by simp [he, hr]⟩
  have h3 : UserQuery.insert_violates db
      { id := nid, username := d.username, email := d.email,
        password := pwd_hash d.confirm_password salt, phone_number := d.phone_number,
        is_active := true, created := importTime, modified := importTime,
        last_login := none } = true := h2 _ rfl
  refine ⟨?_, rfl⟩
  unfold UserQuery.register_new_user
  rw [h1]
  simp only [hpw, bne_self_eq_false, Bool.false_eq_true, if_false, hphone, h3, if_true]

/-- Witness for C2's amended theorem at a concrete store and request. -/
theorem register_duplicate_insert_raises_value_error_witness :
    UserQuery.register_new_user 4
        [{ id := 1, username := "carol", email := "c@b.c",
           password := pwd_hash "pw" 0, created := 0, modified := 0 }]
        { username := "diane", email := "c@b.c",
          password := "pw", confirm_password := "pw" } 2 1
      = (.error (.valueError "Failed to register user due to a database error."),
         [{ id := 1, username := "carol", email := "c@b.c",
            password := pwd_hash "pw" 0, created := 0, modified := 0 }]) ∧
    (PyErr.valueError "Failed to register user due to a database error.").isUsernameTaken
      = false :=
  register_duplicate_insert_raises_value_error 4 _ _ 2 1 (by decide) rfl rfl
    ⟨{ id := 1, username := "carol", email := "c@b.c",
       password := pwd_hash "pw" 0, created := 0, modified := 0 }, by decide, rfl⟩

/-- Claim C5: the `created` and `modified` column defaults are the constant
captured when the model module was imported, not the time of the insert or
mutation.  Register (at import-time constant 3), then log in when the clock
reads 9, then change the password: `last_login` records 9 (a genuine
`datetime.now()` call), yet `modified` is still 3, the import-time constant,
and `created` is 3 regardless of when the insert ran. -/
theorem timestamps_frozen_at_import_time :
    ((UserQuery.change_password 3
        (UserQuery.login 3
          (UserQuery.register_new_user 3 []
            { username := "alice", email := "a@b.c",
              password := "pw", confirm_password := "pw" } 1 0).2
          "a@b.c" "pw" 9).2
        1 "pw2" "pw2" 1).2).map (fun u => (u.created, u.modified, u.last_login))
      = [(3, 3, some 9)] := by
  rfl

/-- Claim C8: renaming to a username already held by a (different) stored
account raises `UsernameAlreadyExistsError` and the store — in particular
the calling account's username — is unchanged. -/
theorem change_username_taken_conflict (importTime : Nat) (db : DB) (uid : Nat)
    (v : UserRow) (hv : v ∈ db) (hother : v.id ≠ uid) :
    UserQuery.change_username importTime db uid v.username
      = (.error (.usernameAlreadyExists v.username), db) := by
  have h1 : (db.find? (fun u => u.username == v.username)).isSome := by
    rw [List.find?_isSome]
    exact ⟨v, hv, by simp⟩
  unfold UserQuery.change_username
  cases hfd : db.find? (fun u => u.username == v.username) with
  | none => rw [hfd] at h1; simp at h1
  | some w => rfl

/-- Witness for C8 at a concrete store: account 1 tries to take account 2's
username. -/
theorem change_username_taken_conflict_witness :
    UserQuery.change_username 0
        [{ id := 1, username := "alice", email := "a@b.c",
           password := pwd_hash "pw" 0, created := 0, modified := 0 },
         { id := 2, username := "bobby", email := "b@b.c",
           password := pwd_hash "pw" 1, created := 0, modified := 0 }] 1 "bobby"
      = (.error (.usernameAlreadyExists "bobby"),
         [{ id := 1, username := "alice", email := "a@b.c",
            password := pwd_hash "pw" 0, created := 0, modified := 0 },
          { id := 2, username := "bobby", email := "b@b.c",
            password := pwd_hash "pw" 1, created := 0, modified := 0 }]) :=
  change_username_taken_conflict 0 _ 1
    { id := 2, username := "bobby", email := "b@b.c",
      password := pwd_hash "pw" 1, created := 0, modified := 0 }
    (by decide) (by decide)

/-- Claim C10: the duplicate pre-check of `change_username` matches any row
holding the candidate name, the caller included, so a no-op self-rename
raises `UsernameAlreadyExistsError` rather than succeeding. -/
theorem change_username_self_rename_rejected (importTime : Nat) (db : DB)
    (u : UserRow) (hu : u ∈ db) :
    UserQuery.change_username importTime db u.id u.username
      = (.error (.usernameAlreadyExists u.username), db) := by
  have h1 : (db.find? (fun w => w.username == u.username)).isSome := by
    rw [List.find?_isSome]
    exact ⟨u, hu, by simp⟩
  unfold UserQuery.change_username
  cases hfd : db.find? (fun w => w.username == u.username) with
  | none => rw [hfd] at h1; simp at h1
  | some w => rfl

/-- Witness for C10: account 1 renames to its own current username. -/
theorem change_username_self_rename_rejected_witness :
    UserQuery.change_username 0
        [{ id := 1, username := "alice", email := "a@b.c",
           password := pwd_hash "pw" 0, created := 0, modified := 0 }] 1 "alice"
      = (.error (.usernameAlreadyExists "alice"),
         [{ id := 1, username := "alice", email := "a@b.c",
            password := pwd_hash "pw" 0, created := 0, modified := 0 }]) :=
  change_username_self_rename_rejected 0 _
    { id := 1, username := "alice", email := "a@b.c",
      password := pwd_hash "pw" 0, created := 0, modified := 0 }
    (by decide)

/-- Claim C9, counterexample: `change_username` performs no length check of
its own — renaming account 1 to the 2-character name "ab" fails only at the
store, as an uncaught `IntegrityError` from the `check_username_min_length`
constraint, not as the conflict/validation error the core raises elsewhere;
and the same store violation at registration is caught and mapped to
`ValueError`, so the two operations do not reject alike. -/
theorem change_username_short_store_error_example :
    UserQuery.change_username 0
        [{ id := 1, username := "bobby", email := "b@b.c",
           password := pwd_hash "pw" 0, created := 0, modified := 0 }] 1 "ab"
      = (.error .integrityError,
         [{ id := 1, username := "bobby", email := "b@b.c",
            password := pwd_hash "pw" 0, created := 0, modified := 0 }]) ∧
    PyErr.integrityError.isUsernameTaken = false ∧
    (UserQuery.register_new_user 0 []
        { username := "ab", email := "a@b.c",
          password := "pw", confirm_password := "pw" } 1 0).1
      = .error (.valueError "Failed to register user due to a database error.") := by
  exact ⟨rfl, rfl, rfl⟩

/-- Claim C9, amended: the length-4 rule is enforced by the store, not the
core — when the candidate username is shorter than 4 characters, unused, and
the target account exists, `change_username` surfaces the store's uncaught
`IntegrityError` (leaving the store unchanged), rather than a core
validation/conflict error as at registration. -/
theorem change_username_short_integrity_error (importTime : Nat) (db : DB)
    (uid : Nat) (s : String) (hshort : s.length < 4)
    (hfree : ∀ u ∈ db, u.username ≠ s)
    (hex : ∃ u ∈ db, u.id = uid) :
    UserQuery.change_username importTime db uid s
      = (.error .integrityError, db) ∧
    PyErr.integrityError.isUsernameTaken = false := by
  have h1 : db.find? (fun u => u.username == s) = none :=
    db_find_none db (by intro u hu; simpa using hfree u hu)
  have h2 : db.any (fun u => u.id == uid) = true := by
    obtain ⟨u, hu, he⟩ := hex
    simp only [List.any_eq_true]
    exact ⟨u, hu, by simp [he]⟩
  refine ⟨?_, rfl⟩
  unfold UserQuery.change_username
  rw [h1]
  simp [hshort, h2]

/-- Witness for C9's amended theorem at a concrete store and candidate. -/
theorem change_username_short_integrity_error_witness :
    UserQuery.change_username 2
        [{ id := 7, username := "carol", email := "c@b.c",
           password := pwd_hash "pw" 0, created := 0, modified := 0 }] 7 "xy"
      = (.error .integrityError,
         [{ id := 7, username := "carol", email := "c@b.c",
            password := pwd_hash "pw" 0, created := 0, modified := 0 }]) ∧
    PyErr.integrityError.isUsernameTaken = false :=
  change_username_short_integrity_error 2 _ 7 "xy" (by decide) (by decide)
    ⟨{ id := 7, username := "carol", email := "c@b.c",
       password := pwd_hash "pw" 0, created := 0, modified := 0 }, by decide, rfl⟩

/-- Claim C6, counterexample: the validator accepts a phone with a trailing
newline — Python's `$` matches just before a newline that ends the string —
so registration's phone guard lets it through as well. -/
theorem phone_trailing_newline_accepted :
    re_match_phone "+14155552671\n" = true ∧
    UserQuery.phone_rejected (some "+14155552671\n") = false := by
  exact ⟨rfl, rfl⟩

/-- Splitting a list at the first failure of `p`: when every element of `ds`
satisfies `p` and `t` is empty or starts with an element refuting `p`,
`takeWhile` and `dropWhile` recover exactly `ds` and `t`. -/
theorem takeWhile_dropWhile_split (p : Char → Bool) :
    ∀ (ds t : List Char), (∀ c ∈ ds, p c = true) →
      (t = [] ∨ ∃ c cs, t = c :: cs ∧ p c = false) →
      (ds ++ t).takeWhile p = ds ∧ (ds ++ t).dropWhile p = t := by
  intro ds
  induction ds with
  | nil =>
    intro t _ ht
    rcases ht with rfl | ⟨c, cs, rfl, hc⟩
    · exact ⟨rfl, rfl⟩
    · simp [List.takeWhile_cons, List.dropWhile_cons, hc]
  | cons d ds ih =>
    intro t hds ht
    have hd : p d = true := hds d (List.mem_cons_self d ds)
    have hrec := ih t (fun c hc => hds c (List.mem_cons_of_mem d hc)) ht
    simp [List.takeWhile_cons, List.dropWhile_cons, hd, hrec.1, hrec.2]

/-- Claim C6, amended: `re_match_phone` accepts exactly the strings made of
`+`, then 1 to 15 digits, then either nothing or one final newline (Python's
`$` tolerates the newline); and for every non-empty phone string the
validator refuses, `register_new_user` (username free, passwords matching)
raises `InvalidPhoneNumberError` and creates no account. -/
theorem re_match_phone_characterization :
    (∀ s : String, re_match_phone s = true ↔
      ∃ ds t, s.data = '+' :: (ds ++ t) ∧ ds ≠ [] ∧ ds.length ≤ 15 ∧
        (∀ c ∈ ds, c.isDigit = true) ∧ (t = [] ∨ t = ['\n'])) ∧
    (∀ (importTime : Nat) (db : DB) (d : UserCreateSchema) (nid salt : Nat)
        (p : String),
      (∀ u ∈ db, u.username ≠ d.username) → d.password = d.confirm_password →
      d.phone_number = some p → p ≠ "" → re_match_phone p = false →
      UserQuery.register_new_user importTime db d nid salt
        = (.error (.invalidPhoneNumber
            "Invalid phone number format. Use international format (e.g., +14155552671)."),
           db)) := by
  constructor
  · intro s
    unfold re_match_phone
    split
    next rest heq =>
      simp only [Bool.and_eq_true, Bool.or_eq_true, decide_eq_true_eq, beq_iff_eq]
      constructor
      · rintro ⟨⟨h1, h2⟩, h3⟩
        refine ⟨rest.takeWhile Char.isDigit, rest.dropWhile Char.isDigit, ?_, ?_, h2, ?_, h3⟩
        · rw [heq, List.takeWhile_append_dropWhile]
        · exact List.length_pos.mp h1
        · intro c hc
          exact List.mem_takeWhile_imp hc
      · rintro ⟨ds, t, hsd, hne, hlen, hdig, ht⟩
        rw [heq] at hsd
        injection hsd with _ hrest
        have htail : t = [] ∨ ∃ c cs, t = c :: cs ∧ Char.isDigit c = false := by
          rcases ht with rfl | rfl
          · exact Or.inl rfl
          · exact Or.inr ⟨'\n', [], rfl, by decide⟩
        have hsplit := takeWhile_dropWhile_split Char.isDigit ds t hdig htail
        subst hrest
        rw [hsplit.1, hsplit.2]
        exact ⟨⟨List.length_pos.mpr hne, hlen⟩, ht⟩
    next hmiss =>
      simp only [Bool.false_eq_true, false_iff]
      rintro ⟨ds, t, hsd, -, -, -, -⟩
      exact hmiss (ds ++ t) hsd
  · intro importTime db d nid salt p hfree hpw hp hpe hpm
    have h1 : db.find? (fun u => u.username == d.username) = none :=
      db_find_none db (by intro u hu; simpa using hfree u hu)
    have h2 : UserQuery.phone_rejected d.phone_number = true := by
      rw [hp]
      have hempty : p.isEmpty = false := by
        rw [Bool.eq_false_iff]
        intro hcon
        exact hpe ((String.isEmpty_iff p).mp hcon)
      unfold UserQuery.phone_rejected
      simp [hpm, hempty]
    unfold UserQuery.register_new_user
    rw [h1]
    simp only [hpw, bne_self_eq_false, Bool.false_eq_true, if_false, h2, if_true]

/-- Witness for C6's amended theorem: the newline-tolerant acceptance at a
concrete string, and the registration failure at a concrete invalid phone. -/
theorem re_match_phone_characterization_witness :
    re_match_phone "+42\n" = true ∧
    UserQuery.register_new_user 0 []
        { username := "erin1", email := "e@b.c", phone_number := some "415-555",
          password := "pw", confirm_password := "pw" } 1 0
      = (.error (.invalidPhoneNumber
          "Invalid phone number format. Use international format (e.g., +14155552671)."),
         []) :=
  ⟨(re_match_phone_characterization.1 "+42\n").mpr
      ⟨['4', '2'], ['\n'], rfl, by decide, by decide, by decide, Or.inr rfl⟩,
   re_match_phone_characterization.2 0 [] _ 1 0 "415-555" (by decide) rfl rfl
      (by decide) (by decide)⟩
